import Mathlib

/-!
# Verification of the gax-nodejs streaming retry engine

A shallow embedding of the server-streaming retry state machine
(`src/streamingCalls/streaming.ts`), the legacy streaming retry wrapper
(`src/streamingRetryRequest.ts`) and the page engine
(`src/paginationCalls/pageDescriptor.ts`), together with theorems about the
behaviour those sources implement.

JS numbers that take part in arithmetic are modelled as rationals (`ℚ`);
optional JS values (`undefined`) are modelled with `Option`; JS truthiness on
numbers (`undefined` and `0` are falsy) is made explicit in `truthyN` /
`truthyQ`.  Streams are modelled by an explicit event trace: an upstream
attempt delivers a list of `UpEvent`s, and the proxy's handlers are folded
over that list, producing the list of consumer-visible `Output`s.
-/

namespace Gax

/-- gRPC status code used by the engine (`Status.INVALID_ARGUMENT`). -/
def Status.INVALID_ARGUMENT : Nat := 3

/-- gRPC status code used by the engine (`Status.DEADLINE_EXCEEDED`). -/
def Status.DEADLINE_EXCEEDED : Nat := 4

/-- Modelled from the spec: the decoded content of the
`grpc-status-details-bin` metadata blob (`google.rpc.ErrorInfo`); the decoder
itself (`googleError.ts`) is not among the provided sources, so the blob is
carried in already-decoded form. -/
structure ErrorInfo where
  reason : Option String
  domain : Option String
  metadata : List (String × String)
deriving DecidableEq, Repr

/-- The error object of the engine (`GoogleError`): gRPC-style numeric `code`,
`message`, optional `note`, decoded detail fields, and the opaque status
blob carried in its metadata (in decoded form, see `ErrorInfo`). -/
structure GoogleError where
  code : Option Nat
  message : String
  note : Option String
  domain : Option String
  reason : Option String
  errorInfoMetadata : Option (List (String × String))
  statusDetails : Option ErrorInfo
deriving DecidableEq, Repr

/-- `new GoogleError(message)`: a fresh error with only a message. -/
def newGoogleError (msg : String) : GoogleError :=
  { code := none, message := msg, note := none, domain := none, reason := none,
    errorInfoMetadata := none, statusDetails := none }

/-- Modelled from the spec: `GoogleError.parseGRPCStatusDetails` (the decoder
in `googleError.ts` is not among the provided sources).  It reads the
status blob from the error's metadata if present, copies the decoded
`reason`/`domain`/`metadata` onto the error, and returns the same error;
absent metadata leaves every field unset. -/
def parseGRPCStatusDetails (e : GoogleError) : GoogleError :=
  match e.statusDetails with
  | none => e
  | some info =>
    { e with reason := info.reason, domain := info.domain,
             errorInfoMetadata := some info.metadata }

/-- Modelled from the spec: the JS string coercion of a `GoogleError` used by
the template literals, i.e. the default `Error.prototype.toString`
(`name + ": " + message`). -/
def googleErrorToString (e : GoogleError) : String :=
  "Error: " ++ e.message

/-- `BackoffSettings` (gax.ts shape as consumed by `newStreamingRetryRequest`):
`totalTimeoutMillis` and `maxRetries` are optional; the `?? undefined`
normalisations in the source are identities under this model. -/
structure BackoffSettings where
  initialRetryDelayMillis : ℚ
  retryDelayMultiplier : ℚ
  maxRetryDelayMillis : ℚ
  initialRpcTimeoutMillis : Option ℚ
  rpcTimeoutMultiplier : Option ℚ
  maxRpcTimeoutMillis : Option ℚ
  totalTimeoutMillis : Option ℚ
  maxRetries : Option Nat

/-- The request value passed to a stub call, modelled as an opaque key/value
record. -/
abbrev RequestType := List (String × String)

/-- `RetryOptions`: retry-code set, backoff settings, optional user predicate
and optional resumption-strategy function. -/
structure RetryOptions where
  retryCodes : List Nat
  backoffSettings : BackoffSettings
  shouldRetryFn : Option (GoogleError → Bool)
  getResumptionRequestFn : Option (RequestType → RequestType)

/-- JS truthiness of an optional number (`undefined` and `0` are falsy). -/
def truthyN : Option Nat → Bool
  | some n => n ≠ 0
  | none => false

/-- JS truthiness of an optional rational (`undefined` and `0` are falsy). -/
def truthyQ : Option ℚ → Bool
  | some q => q ≠ 0
  | none => false

/-- JS `x >= y` where `y` may be `undefined`: a comparison with `undefined`
is `NaN`-valued and yields `false`. -/
def jsGeNat (x : Nat) : Option Nat → Bool
  | some y => x ≥ y
  | none => false

/-- JS `x < 0` where `x` may be `undefined` (comparison with `undefined`
yields `false`). -/
def jsLtZeroQ : Option ℚ → Bool
  | some q => q < 0
  | none => false

/-- JS `x === 0` where `x` may be `undefined`. -/
def jsEqZeroQ : Option ℚ → Bool
  | some q => q = 0
  | none => false

/-- Modelled from the spec: JS number-to-string coercion for the timeout value
interpolated into the total-timeout message (`${originalTimeout}`;
`undefined` prints as `"undefined"`).  Integral rationals print as integers. -/
def optQToString : Option ℚ → String
  | none => "undefined"
  | some q => if q.den = 1 then toString q.num else toString q

/-- `StreamProxy.defaultShouldRetry`: an error is not retryable when the
retry-code list is empty or does not contain the error's code. -/
def defaultShouldRetry (error : GoogleError) (retry : RetryOptions) : Bool :=
  if (retry.retryCodes.length > 0 &&
        !(match error.code with
          | some c => retry.retryCodes.contains c
          | none => false)) ||
      retry.retryCodes.length == 0 then
    false
  else
    true

/-- `StreamProxy.shouldRetryRequest`: parse the error, apply
`defaultShouldRetry`, and let a user-supplied `shouldRetryFn` override the
default when present. -/
def shouldRetryRequest (error : GoogleError) (retry : RetryOptions) : Bool :=
  let e := parseGRPCStatusDetails error
  let shouldRetry := defaultShouldRetry e retry
  match retry.shouldRetryFn with
  | some f => f e
  | none => shouldRetry

/-- The total-timeout error built by
`throwIfMaxRetriesOrTotalTimeoutExceeded` (its message interpolates the
original timeout and the original error; note the doubled space of the
source template). -/
def totalTimeoutExceededError (originalTimeout : Option ℚ)
    (originalError : GoogleError) : GoogleError :=
  { newGoogleError
      ("Total timeout of API exceeded " ++ optQToString originalTimeout ++
        " milliseconds " ++
        ("retrying error " ++ googleErrorToString originalError ++ " ") ++
        " before any response was received.") with
    code := some Status.DEADLINE_EXCEEDED }

/-- The max-retries error built by
`throwIfMaxRetriesOrTotalTimeoutExceeded`. -/
def maxRetriesExceededError (originalError : GoogleError) : GoogleError :=
  { newGoogleError
      ("Exceeded maximum number of retries " ++
        ("retrying error " ++ googleErrorToString originalError ++ " ") ++
        "before any response was received") with
    code := some Status.DEADLINE_EXCEEDED }

/-- `StreamProxy.throwIfMaxRetriesOrTotalTimeoutExceeded`: returns the thrown
error, or `none` when no budget is exhausted.  `totalTimeoutMillis` receives
the *current RPC timeout* at the call site, `originalTimeout` the configured
total timeout; `nowTime` is `new Date().getTime()` at the moment of the
check.  `originalError` is a JS object and hence always truthy. -/
def throwIfMaxRetriesOrTotalTimeoutExceeded (deadline : ℚ)
    (maxRetries : Option Nat) (totalTimeoutMillis : Option ℚ)
    (originalError : GoogleError) (originalTimeout : Option ℚ)
    (retries : Nat) (nowTime : ℚ) : Option GoogleError :=
  if truthyQ originalTimeout &&
      (jsEqZeroQ totalTimeoutMillis || jsLtZeroQ totalTimeoutMillis ||
        (decide (deadline ≠ 0) && decide (nowTime ≥ deadline))) then
    some (totalTimeoutExceededError originalTimeout originalError)
  else if maxRetries == some 0 then
    some { originalError with note := some "Max retries is set to zero." }
  else if (retries != 0) && jsGeNat retries maxRetries then
    some (maxRetriesExceededError originalError)
  else
    none

/-- `transientErrorHelper` in `newStreamingRetryRequest`: parse the error,
attach the non-transient note, and (at the call site) destroy the request
stream silently and the retry stream with the error. -/
def transientErrorHelper (error : GoogleError) : GoogleError :=
  let e := parseGRPCStatusDetails error
  { e with note := some ("Exception occurred in retry method that was " ++
      "not classified as transient") }

/-- The `INVALID_ARGUMENT` error raised when both `totalTimeoutMillis` and
`maxRetries` are configured. -/
def cannotSetBothError : GoogleError :=
  { newGoogleError ("Cannot set both totalTimeoutMillis and maxRetries " ++
      "in backoffSettings.") with
    code := some Status.INVALID_ARGUMENT }

/-- JS `typeof v !== undefined`: `typeof` always yields a *string*, and a
string is never the *value* `undefined`, so this comparison is `true` for
every `v` (the source presumably intended `!== 'undefined'`). -/
def typeofNeValueUndefined : Bool := true

/-- The synthesized response envelope (`{code, details, message, metadata?}`)
emitted by `statusMetadataHelper`. -/
structure ResponseEnvelope where
  code : Nat
  details : String
  message : String
  metadata : Option Nat
deriving DecidableEq, Repr

/-- Events delivered by one upstream `RequestStream` attempt, plus the firing
of the backoff timer (`setTimeout` callback) that starts the next attempt.
Metadata and status payloads are opaque (`Nat`); an error event carries the
wall-clock time at which the handler runs. -/
inductive UpEvent where
  | metadata (md : Nat)
  | upResponse (r : ResponseEnvelope)
  | status (st : Nat)
  | data (d : Nat)
  | ended
  | error (e : GoogleError) (now : ℚ)
  | retryFire (now : ℚ)
deriving DecidableEq, Repr

/-- Consumer-visible effects of the retry stream: forwarded events, the
synthesized response, normal completion (`retryStream.end()`), destruction
with an error (`retryStream.destroy(e)`), and the issuing of a new upstream
attempt with its request argument. -/
inductive Output where
  | metadata (md : Nat)
  | response (r : ResponseEnvelope)
  | status (st : Nat)
  | data (d : Nat)
  | streamEnd
  | destroy (e : GoogleError)
  | retryAttempt (arg : RequestType)
deriving DecidableEq, Repr

/-- The per-call configuration captured by the closures of
`newStreamingRetryRequest` (lines 385-401): the retry options, the call
argument, and the derived `totalTimeout` / `maxRetries` / `deadline`. -/
structure MachineParams where
  retry : RetryOptions
  argument : RequestType
  totalTimeout : Option ℚ
  maxRetries : Option Nat
  deadline : ℚ

/-- Derivation of `MachineParams` from the retry options at call time
(`totalTimeout`/`maxRetries` via `?? undefined`; `deadline` is
`now + totalTimeout` when a total timeout is configured, else `0`). -/
def mkParams (retry : RetryOptions) (argument : RequestType)
    (startTime : ℚ) : MachineParams :=
  let totalTimeout := retry.backoffSettings.totalTimeoutMillis
  { retry := retry, argument := argument, totalTimeout := totalTimeout,
    maxRetries := retry.backoffSettings.maxRetries,
    deadline := if truthyQ totalTimeout then startTime + totalTimeout.getD 0
      else 0 }

/-- The mutable state of the retry machine: the per-attempt booleans
(`dataEnd`, `statusReceived`, `enteredError`), the cross-attempt counters
(`retries`, `timeout`), the proxy's `_responseHasSent` flag, whether the
retry stream has reached a terminal state (ended or destroyed: no further
events are delivered to the consumer), and whether a backoff timer is
armed. -/
structure MachineState where
  dataEnd : Bool
  statusReceived : Bool
  enteredError : Bool
  retries : Nat
  timeout : Option ℚ
  responseHasSent : Bool
  terminated : Bool
  timerArmed : Bool
deriving DecidableEq, Repr

/-- The initial machine state (`retries = 0`, `timeout` from
`initialRpcTimeoutMillis ?? undefined`, `_responseHasSent = false`). -/
def initState (retry : RetryOptions) : MachineState :=
  { dataEnd := false, statusReceived := false, enteredError := false,
    retries := 0, timeout := retry.backoffSettings.initialRpcTimeoutMillis,
    responseHasSent := false, terminated := false, timerArmed := false }

/-- The timeout recalculation performed inside the backoff timer (lines
539-547): only when the current timeout is truthy, take the minimum of the
multiplied timeout, the max RPC timeout and the remaining deadline. -/
def recomputeTimeout (bs : BackoffSettings) (deadline : ℚ)
    (timeout : Option ℚ) (now : ℚ) : Option ℚ :=
  if truthyQ timeout then
    let timeoutCal : ℚ :=
      if truthyQ timeout && truthyQ bs.rpcTimeoutMultiplier then
        timeout.getD 0 * bs.rpcTimeoutMultiplier.getD 0
      else 0
    let rpcTimeout : ℚ :=
      if truthyQ bs.maxRpcTimeoutMillis then bs.maxRpcTimeoutMillis.getD 0
      else 0
    let newDeadline : ℚ := if deadline ≠ 0 then deadline - now else 0
    some (min (min timeoutCal rpcTimeout) newDeadline)
  else timeout

/-- The next attempt's request: `getResumptionRequestFn` applied to the
original call argument when present, else the original argument. -/
def nextRetryArgument (p : MachineParams) : RequestType :=
  match p.retry.getResumptionRequestFn with
  | some f => f p.argument
  | none => p.argument

/-- The decision taken by the `requestStream.on('error')` handler (lines
484-587): destroy both streams with an error, or schedule a retry.  The
outer guard is the source's `typeof maxRetries !== undefined || typeof
totalTimeout !== undefined`, which is always true (see
`typeofNeValueUndefined`). -/
inductive ErrorDecision where
  | destroyStreams (e : GoogleError)
  | scheduleRetry
deriving DecidableEq, Repr

/-- The body of the `error` handler: classify the error, reject the
both-budgets configuration, consult the budget check, and otherwise
schedule a retry. -/
def handleErrorEvent (p : MachineParams) (retries : Nat) (timeout : Option ℚ)
    (e : GoogleError) (now : ℚ) : ErrorDecision :=
  if typeofNeValueUndefined || typeofNeValueUndefined then
    if shouldRetryRequest e p.retry then
      if truthyN p.maxRetries && truthyQ p.totalTimeout then
        .destroyStreams cannotSetBothError
      else
        match throwIfMaxRetriesOrTotalTimeoutExceeded p.deadline p.maxRetries
            timeout e p.totalTimeout retries now with
        | some err => .destroyStreams (parseGRPCStatusDetails err)
        | none => .scheduleRetry
    else
      .destroyStreams (transientErrorHelper e)
  else
    .destroyStreams (transientErrorHelper e)

/-- One step of the retry machine: the handlers wired by `newMakeRequest`
(forwarding, `statusMetadataHelper`, the data/status/end/error handlers,
and the backoff timer).  Output order within a step follows handler
attachment order.  After the retry stream has ended or been destroyed
no further events reach the consumer. -/
def stepEvent (p : MachineParams) (s : MachineState) (ev : UpEvent) :
    List Output × MachineState :=
  if s.terminated then ([], s) else
  match ev with
  | .metadata md =>
    ([.metadata md,
      .response { code := 200, details := "", message := "OK",
                  metadata := some md }],
     { s with responseHasSent := true })
  | .upResponse r => ([.response r], s)
  | .status st =>
    let outs := [Output.status st] ++
      (if !s.responseHasSent then
        [Output.response { code := 200, details := "", message := "OK",
                           metadata := none }]
      else [])
    if s.dataEnd then
      (outs ++ [.streamEnd], { s with statusReceived := true,
                                      terminated := true })
    else (outs, { s with statusReceived := true })
  | .data d => ([.data d], { s with retries := 0 })
  | .ended =>
    if !s.enteredError then
      if s.statusReceived then
        ([.streamEnd], { s with dataEnd := true, terminated := true })
      else ([], { s with dataEnd := true })
    else ([], s)
  | .error e now =>
    match handleErrorEvent p s.retries s.timeout e now with
    | .destroyStreams err =>
      ([.destroy err], { s with enteredError := true, terminated := true })
    | .scheduleRetry => ([], { s with enteredError := true,
                                      timerArmed := true })
  | .retryFire now =>
    if s.timerArmed then
      ([.retryAttempt (nextRetryArgument p)],
       { s with
          timeout := recomputeTimeout p.retry.backoffSettings p.deadline
            s.timeout now,
          retries := s.retries + 1,
          dataEnd := false, statusReceived := false, enteredError := false,
          timerArmed := false })
    else ([], s)

/-- Fold the machine over an event trace, concatenating outputs. -/
def runFrom (p : MachineParams) (s : MachineState) :
    List UpEvent → List Output × MachineState
  | [] => ([], s)
  | ev :: rest =>
    let step := stepEvent p s ev
    let tail := runFrom p step.2 rest
    (step.1 ++ tail.1, tail.2)

/-- Run the machine from its initial state, as `newStreamingRetryRequest`
does at call time. -/
def runEvents (retry : RetryOptions) (argument : RequestType)
    (startTime : ℚ) (evs : List UpEvent) : List Output × MachineState :=
  runFrom (mkParams retry argument startTime) (initState retry) evs

/-- Is a consumer output a `response` event? -/
def isResponseOut : Output → Bool
  | .response _ => true
  | _ => false

/-- Is a consumer output the issuing of a new upstream attempt? -/
def isRetryAttemptOut : Output → Bool
  | .retryAttempt _ => true
  | _ => false

/-- Is a consumer output a destruction with an error? -/
def isDestroyOut : Output → Bool
  | .destroy _ => true
  | _ => false

/-! ## Page engine (`pageDescriptor.ts`) -/

/-- `maxAttemptsEmptyResponse` (pageDescriptor.ts line 630). -/
def maxAttemptsEmptyResponse : Nat := 10

/-- The per-page result of the unary stub call inside `createIterator`:
either an array of resources or a protobuf-map response. -/
inductive PageResult (R : Type) where
  | arr (xs : List R)
  | mp (kvs : List (String × R))
deriving DecidableEq, Repr

/-- An entry of the iterator's cache: a plain resource, or a `(key, value)`
tuple for map-type responses. -/
inductive CacheEntry (R : Type) where
  | res (x : R)
  | pair (k : String) (v : R)
deriving DecidableEq, Repr

/-- How one page's result is pushed onto the cache (array spread, or one
tuple per map entry). -/
def resultToCache {R : Type} : PageResult R → List (CacheEntry R)
  | .arr xs => xs.map .res
  | .mp kvs => kvs.map fun kv => .pair kv.1 kv.2

/-- The state held by the closure of `createIterator`'s
`Symbol.asyncIterator`: the cache and the next page request (`null` once
the last page was fetched). -/
structure IterState (Req R : Type) where
  cache : List (CacheEntry R)
  nextPageRequest : Option Req
deriving DecidableEq, Repr

/-- The `while (cache.length === 0 && nextPageRequest)` loop of
`createIterator.next()`: fetch a page, refill the cache, and count
consecutive empty pages, breaking once the count exceeds
`maxAttemptsEmptyResponse`.  The third component counts the stub calls
made.  Termination: every continued iteration increments `attempts`, which
the break bounds by `maxAttemptsEmptyResponse`. -/
def fetchLoop {Req R : Type} (api : Req → PageResult R × Option Req) :
    List (CacheEntry R) → Option Req → Nat → Nat →
    List (CacheEntry R) × Option Req × Nat
  | cache, next, attempts, calls =>
    match next with
    | none => (cache, none, calls)
    | some q =>
      if cache.isEmpty then
        let r := api q
        let cache2 := cache ++ resultToCache r.1
        if cache2.isEmpty then
          if attempts + 1 > maxAttemptsEmptyResponse then
            (cache2, r.2, calls + 1)
          else
            fetchLoop api cache2 r.2 (attempts + 1) (calls + 1)
        else (cache2, r.2, calls + 1)
      else (cache, some q, calls)
termination_by _ _ attempts _ => maxAttemptsEmptyResponse + 1 - attempts
decreasing_by
  simp_wf
  simp only [not_lt] at *
  omega

/-- `createIterator`'s `next()`: shift from the cache when non-empty, else
run the fetch loop with a fresh `attempts` counter and either yield the
terminal `{done:true, value:undefined}` (modelled `none`) or shift the
refilled cache.  Also reports the number of stub calls made. -/
def iterNext {Req R : Type} (api : Req → PageResult R × Option Req)
    (s : IterState Req R) :
    Option (CacheEntry R) × IterState Req R × Nat :=
  match s.cache with
  | v :: rest => (some v, { cache := rest, nextPageRequest := s.nextPageRequest }, 0)
  | [] =>
    let r := fetchLoop api [] s.nextPageRequest 0 0
    match r.1 with
    | [] => (none, { cache := [], nextPageRequest := r.2.1 }, r.2.2)
    | v :: rest => (some v, { cache := rest, nextPageRequest := r.2.1 }, r.2.2)

/-- The `CallSettings` fields touched by `createStream`: the `pageToken`
property (deletable), the `autoPaginate` flag, the optional `maxResults`,
and all remaining properties (opaque). -/
structure CallOptions where
  pageToken : Option String
  autoPaginate : Bool
  maxResults : Option Int
  otherFields : List (String × String)
deriving DecidableEq, Repr

/-- The `Object.assign({}, options, {autoPaginate: false})` performed at the
top of `createStream`. -/
def createStreamOptions (options : CallOptions) : CallOptions :=
  { options with autoPaginate := false }

/-- `'maxResults' in options ? options.maxResults : -1`. -/
def effectiveMaxResults (options : CallOptions) : Int :=
  match options.maxResults with
  | some m => m
  | none => -1

/-- The `for` loop over a page's resources inside `createStream`'s callback:
skip `null` resources, push the rest, count pushes, and end the stream when
the push count reaches `maxResults`; once the stream has ended nothing more
is pushed.  Returns the pushed resources, the new push count and the ended
flag. -/
def pushResources {R : Type} (maxResults : Int) :
    List (Option R) → Nat → Bool → List R × Nat × Bool
  | [], count, ended => ([], count, ended)
  | r :: rest, count, ended =>
    if ended then ([], count, ended)
    else
      match r with
      | none => pushResources maxResults rest count ended
      | some x =>
        let count2 := count + 1
        let ended2 := (count2 : Int) == maxResults
        let tail := pushResources maxResults rest count2 ended2
        (x :: tail.1, tail.2)

/-- What the callback does with the next page: dispatch it immediately
(`setImmediate(apiCall, next, options, callback)`), hold it until resume
(paused consumer), or nothing (error or terminal page). -/
inductive PageAction (Req : Type) where
  | dispatch (req : Req)
  | hold (req : Req)
  | idle
deriving DecidableEq, Repr

/-- The observable result of one invocation of `createStream`'s callback. -/
structure PageCbResult (Req R : Type) where
  errorOut : Option GoogleError
  responseEmitted : Bool
  pushed : List R
  ended : Bool
  options : CallOptions
  action : PageAction Req
deriving DecidableEq, Repr

/-- `createStream`'s page callback (pageDescriptor.ts lines 674-725): emit
errors, emit the raw response, push resources (ending at `maxResults`),
end when there is no next page, delete `pageToken` from the options
otherwise, and dispatch or hold the next page request depending on
whether the consumer has paused. -/
def pageStreamCallback {Req R : Type} (paused : Bool) (options : CallOptions)
    (ended0 : Bool) (pushCount : Nat) (err : Option GoogleError)
    (resources : List (Option R)) (next : Option Req) : PageCbResult Req R :=
  match err with
  | some e =>
    { errorOut := some e, responseEmitted := false, pushed := [],
      ended := ended0, options := options, action := .idle }
  | none =>
    let maxResults := effectiveMaxResults options
    let pr := pushResources maxResults resources pushCount ended0
    if pr.2.2 then
      { errorOut := none, responseEmitted := true, pushed := pr.1,
        ended := true, options := options, action := .idle }
    else
      match next with
      | none =>
        { errorOut := none, responseEmitted := true, pushed := pr.1,
          ended := true, options := options, action := .idle }
      | some nreq =>
        let options2 :=
          if options.pageToken.isSome then { options with pageToken := none }
          else options
        if paused then
          { errorOut := none, responseEmitted := true, pushed := pr.1,
            ended := false, options := options2, action := .hold nreq }
        else
          { errorOut := none, responseEmitted := true, pushed := pr.1,
            ended := false, options := options2, action := .dispatch nreq }

/-! ## Legacy streaming retry wrapper (`streamingRetryRequest.ts`) -/

/-- Events observed on the legacy wrapper's request stream: a `response`
event (payload opaque) or an `error` event. -/
inductive LegacyEvent where
  | response (r : Nat)
  | error (e : GoogleError)
deriving DecidableEq, Repr

/-- Consumer-visible effects of the legacy wrapper: the `response` emitted on
the retry stream, an `error` emitted on the retry stream, a fresh
`makeRequest` attempt, and the silent `retryStream.destroy()` (no error
argument) performed by the post-response error handler. -/
inductive LegacyOutput where
  | emitResponse (r : Nat)
  | emitError (e : GoogleError)
  | newAttempt
  | destroyQuiet
deriving DecidableEq, Repr

/-- The state of `streamingRetryRequest`'s closures:
`streamResponseHandled`, `numNoResponseAttempts`, and whether the success
path has run (`delayStream` piped and the destroying error handler
attached). -/
structure LegacyState where
  streamResponseHandled : Bool
  numNoResponseAttempts : Nat
  responsePiped : Bool
deriving DecidableEq, Repr

/-- Initial state of `streamingRetryRequest` after the first `makeRequest`. -/
def legacyInit : LegacyState :=
  { streamResponseHandled := false, numNoResponseAttempts := 0,
    responsePiped := false }

/-- One event of the legacy wrapper.  On `error`, the handler attached by
`makeRequest` runs first (early-returning once a response was handled, else
`onResponse(err)`: retry while `numNoResponseAttempts <= maxRetries`, else
emit the error); the handler attached by the success path of `onResponse`
runs second and silently destroys the retry stream. -/
def legacyStep (maxRetries : Nat) (s : LegacyState) (ev : LegacyEvent) :
    List LegacyOutput × LegacyState :=
  match ev with
  | .response r =>
    if s.streamResponseHandled then ([], s)
    else
      ([.emitResponse r],
       { s with streamResponseHandled := true, responsePiped := true })
  | .error e =>
    let first :=
      if s.streamResponseHandled then (([] : List LegacyOutput), s)
      else
        let n := s.numNoResponseAttempts + 1
        if n ≤ maxRetries then
          ([.newAttempt],
           { s with streamResponseHandled := false,
                    numNoResponseAttempts := n })
        else
          ([.emitError e],
           { s with streamResponseHandled := true,
                    numNoResponseAttempts := n })
    if s.responsePiped then (first.1 ++ [.destroyQuiet], first.2)
    else first

/-- Fold the legacy wrapper over an event trace. -/
def legacyRunFrom (maxRetries : Nat) (s : LegacyState) :
    List LegacyEvent → List LegacyOutput × LegacyState
  | [] => ([], s)
  | ev :: rest =>
    let step := legacyStep maxRetries s ev
    let tail := legacyRunFrom maxRetries step.2 rest
    (step.1 ++ tail.1, tail.2)

/-- After an `emitResponse`, the only acceptable later outputs are silent
destructions: this is the property the post-response error handler
guarantees. -/
def cleanAfterResponse : List LegacyOutput → Bool
  | [] => true
  | LegacyOutput.emitResponse _ :: rest =>
    rest.all fun o => o == LegacyOutput.destroyQuiet
  | _ :: rest => cleanAfterResponse rest

/-! ## Concrete inputs used by the theorems below -/

/-- Backoff settings with neither `totalTimeoutMillis` nor `maxRetries`
configured. -/
def bsNoBudget : BackoffSettings :=
  { initialRetryDelayMillis := 100, retryDelayMultiplier := 13/10,
    maxRetryDelayMillis := 1000, initialRpcTimeoutMillis := none,
    rpcTimeoutMultiplier := none, maxRpcTimeoutMillis := none,
    totalTimeoutMillis := none, maxRetries := none }

/-- Retry options: retry on code 14, no budget, no predicate, no resumption
function. -/
def retryNoBudget : RetryOptions := ⟨[14], bsNoBudget, none, none⟩

/-- A transient-looking error with gRPC code 14 (UNAVAILABLE). -/
def errCode14 : GoogleError := { newGoogleError "conn reset" with code := some 14 }

/-- An error with gRPC code 7, not in any retry-code list used here. -/
def errCode7 : GoogleError := { newGoogleError "conn reset" with code := some 7 }

/-- Backoff settings with BOTH `maxRetries` and `totalTimeoutMillis`
configured. -/
def bsBothBudgets : BackoffSettings :=
  { bsNoBudget with maxRetries := some 2, totalTimeoutMillis := some 1000 }

/-- Retry options with both budgets configured, retrying on code 14. -/
def retryBothBudgets : RetryOptions := ⟨[14], bsBothBudgets, none, none⟩

/-- Backoff settings with only `maxRetries = 2` configured. -/
def bsMaxRetriesTwo : BackoffSettings :=
  { bsNoBudget with maxRetries := some 2 }

/-- Retry options with only `maxRetries = 2`, retrying on code 14. -/
def retryMaxRetriesTwo : RetryOptions := ⟨[14], bsMaxRetriesTwo, none, none⟩

/-- Retry options with an empty retry-code list and no predicate. -/
def retryNever : RetryOptions := ⟨[], bsMaxRetriesTwo, none, none⟩

/-- The event trace of one successful upstream attempt: an optional single
leading `metadata`, any number of `data` messages, then the terminal
`status`/`end` pair in either arrival order. -/
def attemptTrace (mdOpt : Option Nat) (ds : List Nat) (st : Nat)
    (statusFirst : Bool) : List UpEvent :=
  (match mdOpt with
    | some md => [UpEvent.metadata md]
    | none => []) ++ ds.map UpEvent.data ++
  (if statusFirst then [UpEvent.status st, UpEvent.ended]
   else [UpEvent.ended, UpEvent.status st])

/-- The alternating trace of `n` progress/failure cycles: each cycle delivers
one `data` message, then a retryable error, then the backoff timer fires. -/
def altTrace (d : Nat) (e : GoogleError) : Nat → List UpEvent
  | 0 => []
  | n + 1 =>
    UpEvent.data d :: UpEvent.error e 0 :: UpEvent.retryFire 0 ::
      altTrace d e n

/-- A page function whose every page carries zero resources and a non-null
next-page request. -/
def emptyPagesApi : Nat → PageResult Nat × Option Nat :=
  fun n => (PageResult.arr [], some (n + 1))

/-! ## Helper lemmas -/

/-- Parsing the status details never changes the error's code. -/
lemma parseGRPCStatusDetails_code (e : GoogleError) :
    (parseGRPCStatusDetails e).code = e.code := by
  cases h : e.statusDetails <;> simp [parseGRPCStatusDetails, h]

/-- `defaultShouldRetry` holds exactly when the retry-code list is non-empty
and contains the error's code. -/
lemma defaultShouldRetry_eq_true (e : GoogleError) (retry : RetryOptions) :
    defaultShouldRetry e retry = true ↔
      retry.retryCodes ≠ [] ∧ ∃ c, e.code = some c ∧ c ∈ retry.retryCodes := by
  unfold defaultShouldRetry
  cases hc : e.code with
  | none =>
    cases hl : retry.retryCodes with
    | nil => simp
    | cons a l => simp
  | some c =>
    cases hl : retry.retryCodes with
    | nil => simp
    | cons a l =>
      by_cases hm : c ∈ a :: l
      · have hcont : (a :: l).contains c = true := by simpa using hm
        simp only [List.mem_cons] at hm
        simp [hcont, hm]
      · have hcont : (a :: l).contains c = false := by simpa using hm
        simp only [List.mem_cons, not_or] at hm
        simp [hcont, hm]

/-- Running a concatenated trace is running the pieces in sequence. -/
lemma runFrom_append (p : MachineParams) :
    ∀ (a b : List UpEvent) (s : MachineState),
      runFrom p s (a ++ b)
        = ((runFrom p s a).1 ++ (runFrom p (runFrom p s a).2 b).1,
           (runFrom p (runFrom p s a).2 b).2) := by
  intro a
  induction a with
  | nil => intro b s; simp [runFrom]
  | cons ev rest ih =>
    intro b s
    simp [runFrom, ih b (stepEvent p s ev).2, List.append_assoc]

/-- A run of `data` events forwards the messages and changes nothing but the
retry counter. -/
lemma runFrom_dataRun (p : MachineParams) :
    ∀ (ds : List Nat) (s : MachineState), s.terminated = false →
      ∃ r, runFrom p s (ds.map UpEvent.data)
        = (ds.map Output.data, { s with retries := r }) := by
  intro ds
  induction ds with
  | nil => intro s _; exact ⟨s.retries, by simp [runFrom]⟩
  | cons d rest ih =>
    intro s hs
    obtain ⟨r, hr⟩ := ih { s with retries := 0 } (by simp [hs])
    refine ⟨r, ?_⟩
    simp only [hs] at hr
    simp [runFrom, stepEvent, hs, hr]

/-- Forwarded `data` outputs are never `response` outputs. -/
lemma filter_isResponseOut_dataMap (ds : List Nat) :
    (ds.map Output.data).filter isResponseOut = [] := by
  induction ds with
  | nil => rfl
  | cons d rest ih => simp [isResponseOut, ih]

/-- Appending a tail whose last output is `streamEnd` keeps `streamEnd`
last. -/
lemma getLast?_ends_streamEnd (l m : List Output)
    (h : m.getLast? = some Output.streamEnd) :
    (l ++ m).getLast? = some Output.streamEnd := by
  have hm : m ≠ [] := by intro h0; simp [h0] at h
  rw [List.getLast?_append_of_ne_nil l hm, h]

/-- Prepending an output keeps `streamEnd` last. -/
lemma getLast?_cons_streamEnd (a : Output) (l : List Output)
    (h : l.getLast? = some Output.streamEnd) :
    (a :: l).getLast? = some Output.streamEnd :=
  getLast?_ends_streamEnd [a] l h

/-- A step sets `statusReceived` only on a `status` event. -/
lemma step_statusReceived_origin (p : MachineParams) (s : MachineState)
    (ev : UpEvent) (h : ((stepEvent p s ev).2).statusReceived = true) :
    s.statusReceived = true ∨ ∃ st, ev = UpEvent.status st := by
  cases ev with
  | status st => exact Or.inr ⟨st, rfl⟩
  | metadata md =>
    left; unfold stepEvent at h; repeat' split at h
    all_goals simp_all
  | upResponse r =>
    left; unfold stepEvent at h; repeat' split at h
    all_goals simp_all
  | data d =>
    left; unfold stepEvent at h; repeat' split at h
    all_goals simp_all
  | ended =>
    left; unfold stepEvent at h; repeat' split at h
    all_goals simp_all
  | error e now =>
    left; unfold stepEvent at h; repeat' split at h
    all_goals simp_all
  | retryFire now =>
    left; unfold stepEvent at h; repeat' split at h
    all_goals simp_all

/-- A step sets `dataEnd` only on an `end` event. -/
lemma step_dataEnd_origin (p : MachineParams) (s : MachineState)
    (ev : UpEvent) (h : ((stepEvent p s ev).2).dataEnd = true) :
    s.dataEnd = true ∨ ev = UpEvent.ended := by
  cases ev with
  | ended => exact Or.inr rfl
  | metadata md =>
    left; unfold stepEvent at h; repeat' split at h
    all_goals simp_all
  | upResponse r =>
    left; unfold stepEvent at h; repeat' split at h
    all_goals simp_all
  | status st =>
    left; unfold stepEvent at h; repeat' split at h
    all_goals simp_all
  | data d =>
    left; unfold stepEvent at h; repeat' split at h
    all_goals simp_all
  | error e now =>
    left; unfold stepEvent at h; repeat' split at h
    all_goals simp_all
  | retryFire now =>
    left; unfold stepEvent at h; repeat' split at h
    all_goals simp_all

/-- A step emits `streamEnd` only from the `status` handler with `dataEnd`
set, or from the `end` handler with `statusReceived` set. -/
lemma step_streamEnd_sources (p : MachineParams) (s : MachineState)
    (ev : UpEvent) (h : Output.streamEnd ∈ (stepEvent p s ev).1) :
    (s.dataEnd = true ∧ ∃ st, ev = UpEvent.status st) ∨
    (s.statusReceived = true ∧ ev = UpEvent.ended) := by
  cases ev with
  | metadata md =>
    unfold stepEvent at h; repeat' split at h
    all_goals simp_all
  | upResponse r =>
    unfold stepEvent at h; repeat' split at h
    all_goals simp_all
  | status st =>
    unfold stepEvent at h; repeat' split at h
    all_goals simp_all
  | data d =>
    unfold stepEvent at h; repeat' split at h
    all_goals simp_all
  | ended =>
    unfold stepEvent at h; repeat' split at h
    all_goals simp_all
  | error e now =>
    unfold stepEvent at h; repeat' split at h
    all_goals simp_all
  | retryFire now =>
    unfold stepEvent at h; repeat' split at h
    all_goals simp_all

/-- `streamEnd` in a run's outputs requires an accounted-for `status` and
`end`: either the corresponding flag was already set when the run started,
or the trace contains the event. -/
lemma streamEnd_mem_requires (p : MachineParams) :
    ∀ (evs : List UpEvent) (s : MachineState),
      Output.streamEnd ∈ (runFrom p s evs).1 →
        (s.statusReceived = true ∨ ∃ st, UpEvent.status st ∈ evs) ∧
        (s.dataEnd = true ∨ UpEvent.ended ∈ evs) := by
  intro evs
  induction evs with
  | nil => intro s h; simp [runFrom] at h
  | cons ev rest ih =>
    intro s h
    rw [runFrom] at h
    rcases List.mem_append.mp h with hout | hrest
    · rcases step_streamEnd_sources p s ev hout with ⟨hde, st, rfl⟩ | ⟨hsr, rfl⟩
      · exact ⟨Or.inr ⟨st, List.mem_cons_self _ _⟩, Or.inl hde⟩
      · exact ⟨Or.inl hsr, Or.inr (List.mem_cons_self _ _)⟩
    · obtain ⟨h1, h2⟩ := ih (stepEvent p s ev).2 hrest
      constructor
      · rcases h1 with h1 | ⟨st, hst⟩
        · rcases step_statusReceived_origin p s ev h1 with h1 | ⟨st, rfl⟩
          · exact Or.inl h1
          · exact Or.inr ⟨st, List.mem_cons_self _ _⟩
        · exact Or.inr ⟨st, List.mem_cons_of_mem _ hst⟩
      · rcases h2 with h2 | hend
        · rcases step_dataEnd_origin p s ev h2 with h2 | rfl
          · exact Or.inl h2
          · exact Or.inr (List.mem_cons_self _ _)
        · exact Or.inr (List.mem_cons_of_mem _ hend)

/-! ## Claim theorems -/

/-- C1 (code bug): with neither `maxRetries` nor `totalTimeoutMillis`
configured and an error whose code is in `retryCodes`, the spec says the
error is surfaced with the non-transient note and both streams are
destroyed with no retry; the code's guard `typeof maxRetries !== undefined`
is however always true, so the handler enters the retry regime, the budget
check never fires (`retries >= undefined` is false), and a new attempt is
issued: the run below produces a `retryAttempt` and no `destroy`. -/
theorem noBudget_retryable_error_still_retries :
    (runEvents retryNoBudget [("k", "v")] 0
        [UpEvent.error errCode14 0, UpEvent.retryFire 0]).1
      = [Output.retryAttempt [("k", "v")]] ∧
    ((runEvents retryNoBudget [("k", "v")] 0
        [UpEvent.error errCode14 0, UpEvent.retryFire 0]).1.filter
          isDestroyOut) = [] ∧
    (runEvents retryNoBudget [("k", "v")] 0
        [UpEvent.error errCode14 0, UpEvent.retryFire 0]).2.terminated
      = false := by
  refine ⟨by decide, by decide, by decide⟩

/-- C2 (counterexample): with both budgets configured, an error whose code 7
is NOT in `retryCodes = [14]` does not produce the `INVALID_ARGUMENT`
destruction the claim requires for "every error, retryable or not": the
consumer stream is destroyed with the original error (code 7, original
message) carrying the non-transient note instead. -/
theorem bothBudgets_nonRetryable_counterexample :
    (runEvents retryBothBudgets [] 0 [UpEvent.error errCode7 5]).1
      = [Output.destroy
           { code := some 7, message := "conn reset",
             note := some ("Exception occurred in retry method that was " ++
               "not classified as transient"),
             domain := none, reason := none, errorInfoMetadata := none,
             statusDetails := none }] ∧
    some 7 ≠ some Status.INVALID_ARGUMENT := by
  refine ⟨by decide, by decide⟩

/-- C2 (amended): with both `maxRetries` and `totalTimeoutMillis` configured,
every upstream error that the retry policy classifies as RETRYABLE destroys
the consumer stream with a `GoogleError` of code `INVALID_ARGUMENT` (3) and
message "Cannot set both totalTimeoutMillis and maxRetries in
backoffSettings."; the policy check precedes the configuration check, so
non-retryable errors take the non-transient terminal path instead. -/
theorem bothBudgets_invalidArgument_for_retryable (retry : RetryOptions)
    (arg : RequestType) (t0 : ℚ) (s : MachineState) (e : GoogleError)
    (now : ℚ) (hterm : s.terminated = false)
    (hmr : truthyN retry.backoffSettings.maxRetries = true)
    (htt : truthyQ retry.backoffSettings.totalTimeoutMillis = true)
    (hretry : shouldRetryRequest e retry = true) :
    stepEvent (mkParams retry arg t0) s (UpEvent.error e now)
      = ([Output.destroy cannotSetBothError],
         { s with enteredError := true, terminated := true }) ∧
    cannotSetBothError.code = some Status.INVALID_ARGUMENT ∧
    cannotSetBothError.message
      = "Cannot set both totalTimeoutMillis and maxRetries in backoffSettings." := by
  refine ⟨?_, rfl, rfl⟩
  simp [stepEvent, hterm, handleErrorEvent, typeofNeValueUndefined, mkParams,
    hretry, hmr, htt]

/-- C2 (witness): the amended theorem applied to both-budgets options and the
retryable code-14 error. -/
theorem bothBudgets_invalidArgument_witness :
    stepEvent (mkParams retryBothBudgets [] 0) (initState retryBothBudgets)
        (UpEvent.error errCode14 5)
      = ([Output.destroy cannotSetBothError],
         { initState retryBothBudgets with enteredError := true,
                                           terminated := true }) :=
  (bothBudgets_invalidArgument_for_retryable retryBothBudgets [] 0
    (initState retryBothBudgets) errCode14 5 (by decide) (by decide)
    (by decide) (by decide)).1

/-- C3 (confirmed): `shouldRetryRequest` classifies an error as retryable iff
either the user predicate is present and accepts the parsed error, or the
predicate is absent, `retryCodes` is non-empty and the error's code is a
member of it; with an empty list and no predicate nothing is retryable. -/
theorem shouldRetryRequest_classification (error : GoogleError)
    (retry : RetryOptions) :
    (shouldRetryRequest error retry = true ↔
      ((∃ f, retry.shouldRetryFn = some f ∧
          f (parseGRPCStatusDetails error) = true) ∨
       (retry.shouldRetryFn = none ∧ retry.retryCodes ≠ [] ∧
        ∃ c, error.code = some c ∧ c ∈ retry.retryCodes))) ∧
    (retry.shouldRetryFn = none → retry.retryCodes = [] →
      shouldRetryRequest error retry = false) := by
  have hcode := parseGRPCStatusDetails_code error
  cases hf : retry.shouldRetryFn with
  | none =>
    constructor
    · rw [shouldRetryRequest]
      simp only [hf]
      rw [defaultShouldRetry_eq_true]
      rw [hcode]
      simp
    · intro _ hl
      rw [shouldRetryRequest]
      simp only [hf]
      by_contra h
      rw [Bool.not_eq_false, defaultShouldRetry_eq_true] at h
      exact h.1 hl
  | some f =>
    constructor
    · rw [shouldRetryRequest]
      simp [hf]
    · intro h0
      simp [hf] at h0

/-- C3 (witness): the classification applied to concrete inputs: code 14 with
`retryCodes = [14]` and no predicate is retryable; with an empty list and
no predicate nothing is retryable. -/
theorem shouldRetryRequest_classification_witness :
    shouldRetryRequest errCode14 retryNoBudget = true ∧
    shouldRetryRequest errCode14 retryNever = false := by
  constructor
  · exact (shouldRetryRequest_classification errCode14 retryNoBudget).1.mpr
      (Or.inr ⟨rfl, by decide, 14, rfl, by decide⟩)
  · exact (shouldRetryRequest_classification errCode14 retryNever).2 rfl rfl

/-- C4 (counterexample): `_responseHasSent` lives on the proxy and persists
across retry attempts, so a successful attempt that follows a failed
attempt which had emitted `metadata` produces NO synthesized `response` of
its own: in the run below the second attempt (the outputs after the
`retryAttempt`) completes normally (`streamEnd`) yet contains no
`response`, contradicting "exactly one per successful attempt". -/
theorem response_per_attempt_counterexample :
    (runEvents retryMaxRetriesTwo [] 0
        [UpEvent.metadata 1, UpEvent.error errCode14 0, UpEvent.status 9,
         UpEvent.retryFire 0, UpEvent.status 0, UpEvent.ended]).1
      = [Output.metadata 1,
         Output.response { code := 200, details := "", message := "OK",
                           metadata := some 1 },
         Output.status 9, Output.retryAttempt [], Output.status 0,
         Output.streamEnd] ∧
    ([Output.status 0, Output.streamEnd].filter isResponseOut = [] ∧
     Output.streamEnd ∈ [Output.status 0, Output.streamEnd]) := by
  refine ⟨by decide, by decide, by decide⟩

/-- C4 (amended): for every attempt that starts with the proxy's
`responseEmitted` flag unset — in particular the first attempt of every
call — and succeeds (data, at most one leading `metadata`, then `status`
and `end` in either order), exactly one synthesized `response` is emitted
before the consumer stream ends: with `metadata` it carries the metadata
and sets `responseEmitted`; without, it carries no metadata field; no
duplicate is emitted even though both `metadata` and `status` arrive.  The
flag persists across retries, so later attempts may emit none (see the
counterexample). -/
theorem statusMetadataHelper_single_response (retry : RetryOptions)
    (arg : RequestType) (t0 : ℚ) (mdOpt : Option Nat) (ds : List Nat)
    (st : Nat) (statusFirst : Bool) :
    ((runEvents retry arg t0 (attemptTrace mdOpt ds st statusFirst)).1.filter
        isResponseOut
      = [Output.response { code := 200, details := "", message := "OK",
                           metadata := mdOpt }]) ∧
    ((runEvents retry arg t0 (attemptTrace mdOpt ds st statusFirst)).1.getLast?
      = some Output.streamEnd) ∧
    ((runEvents retry arg t0
        (attemptTrace mdOpt ds st statusFirst)).2.responseHasSent
      = mdOpt.isSome) := by
  cases mdOpt with
  | none =>
    obtain ⟨r, hr⟩ := runFrom_dataRun (mkParams retry arg t0) ds
      (initState retry) rfl
    simp only [initState] at hr
    rw [runEvents, attemptTrace]
    cases statusFirst with
    | true =>
      simp [runFrom_append, runFrom, stepEvent, initState, hr,
        filter_isResponseOut_dataMap, isResponseOut,
        List.getLast?_append_of_ne_nil]
    | false =>
      simp [runFrom_append, runFrom, stepEvent, initState, hr,
        filter_isResponseOut_dataMap, isResponseOut,
        List.getLast?_append_of_ne_nil]
  | some md =>
    obtain ⟨r, hr⟩ := runFrom_dataRun (mkParams retry arg t0) ds
      { initState retry with responseHasSent := true } rfl
    simp only [initState] at hr
    rw [runEvents, attemptTrace]
    cases statusFirst with
    | true =>
      simp [runFrom_append, runFrom, stepEvent, initState, hr,
        filter_isResponseOut_dataMap, isResponseOut,
        List.getLast?_append_of_ne_nil]
      exact getLast?_cons_streamEnd _ _ (getLast?_ends_streamEnd _ _ rfl)
    | false =>
      simp [runFrom_append, runFrom, stepEvent, initState, hr,
        filter_isResponseOut_dataMap, isResponseOut,
        List.getLast?_append_of_ne_nil]
      exact getLast?_cons_streamEnd _ _ (getLast?_ends_streamEnd _ _ rfl)


/-- With only `maxRetries = m ≥ 1` configured and a zero retry counter, the
budget check does not throw. -/
lemma throwIf_none_at_zero_retries (deadline : ℚ) (m : Nat) (t : Option ℚ)
    (e : GoogleError) (now : ℚ) (hm : 1 ≤ m) :
    throwIfMaxRetriesOrTotalTimeoutExceeded deadline (some m) t e none 0 now
      = none := by
  have hm0 : (some m == some 0) = false := by
    simp only [beq_eq_false_iff_ne, ne_eq, Option.some.injEq]
    omega
  simp [throwIfMaxRetriesOrTotalTimeoutExceeded, truthyQ, hm0]

/-- With only `maxRetries = m ≥ 1` configured and `retries ≥ m`, the budget
check throws the max-retries `DEADLINE_EXCEEDED` error. -/
lemma throwIf_maxRetries_exceeded (deadline : ℚ) (m : Nat) (t : Option ℚ)
    (e : GoogleError) (now : ℚ) (retries : Nat) (hm : 1 ≤ m)
    (hge : m ≤ retries) :
    throwIfMaxRetriesOrTotalTimeoutExceeded deadline (some m) t e none
        retries now
      = some (maxRetriesExceededError e) := by
  have hm0 : (some m == some 0) = false := by
    simp only [beq_eq_false_iff_ne, ne_eq, Option.some.injEq]
    omega
  have hr0 : (retries != 0) = true := by
    simp only [bne_iff_ne, ne_eq]
    omega
  have hge2 : jsGeNat retries (some m) = true := by
    simp only [jsGeNat, decide_eq_true_eq]
    omega
  simp [throwIfMaxRetriesOrTotalTimeoutExceeded, truthyQ, hm0, hr0, hge2]

/-- C5 (confirmed): the consumer stream completes normally (`streamEnd`) only
once both the upstream `end` and the upstream `status` event are accounted
for, in either arrival order: a completed run's trace contains both events;
an `end` seen before `status` only records `dataEnd` (buffered) and the
later `status` completes; a `status` seen before `end` only records
`statusReceived` and the later `end` completes; and an `end` that arrives
while an error is being handled (`enteredError`) changes nothing. -/
theorem consumer_end_requires_status_and_end :
    (∀ (retry : RetryOptions) (arg : RequestType) (t0 : ℚ)
        (evs : List UpEvent),
      Output.streamEnd ∈ (runEvents retry arg t0 evs).1 →
        (∃ st, UpEvent.status st ∈ evs) ∧ UpEvent.ended ∈ evs) ∧
    (∀ (p : MachineParams) (s : MachineState), s.terminated = false →
      s.enteredError = true → stepEvent p s UpEvent.ended = ([], s)) ∧
    (∀ (p : MachineParams) (s : MachineState), s.terminated = false →
      s.enteredError = false → s.statusReceived = false →
      stepEvent p s UpEvent.ended = ([], { s with dataEnd := true })) ∧
    (∀ (p : MachineParams) (s : MachineState) (st : Nat),
      s.terminated = false → s.dataEnd = true →
      Output.streamEnd ∈ (stepEvent p s (UpEvent.status st)).1) ∧
    (∀ (p : MachineParams) (s : MachineState), s.terminated = false →
      s.enteredError = false → s.statusReceived = true →
      stepEvent p s UpEvent.ended
        = ([Output.streamEnd],
           { s with dataEnd := true, terminated := true })) := by
  refine ⟨?_, ?_, ?_, ?_, ?_⟩
  · intro retry arg t0 evs h
    obtain ⟨h1, h2⟩ := streamEnd_mem_requires (mkParams retry arg t0) evs
      (initState retry) h
    constructor
    · rcases h1 with h1 | h1
      · simp [initState] at h1
      · exact h1
    · rcases h2 with h2 | h2
      · simp [initState] at h2
      · exact h2
  · intro p s hterm hee
    simp [stepEvent, hterm, hee]
  · intro p s hterm hee hsr
    simp [stepEvent, hterm, hee, hsr]
  · intro p s st hterm hde
    simp [stepEvent, hterm, hde]
  · intro p s hterm hee hsr
    simp [stepEvent, hterm, hee, hsr]

/-- C5 (witness): the completion property applied at concrete inputs: a run
over `[status, end]` completes and its trace indeed contains both events;
an `end` during error handling is a no-op on a concrete state. -/
theorem consumer_end_requires_status_and_end_witness :
    ((∃ st, UpEvent.status st ∈ [UpEvent.status 0, UpEvent.ended]) ∧
      UpEvent.ended ∈ [UpEvent.status 0, UpEvent.ended]) ∧
    stepEvent (mkParams retryNoBudget [] 0)
        { initState retryNoBudget with enteredError := true } UpEvent.ended
      = ([], { initState retryNoBudget with enteredError := true }) := by
  constructor
  · exact consumer_end_requires_status_and_end.1 retryNoBudget [] 0
      [UpEvent.status 0, UpEvent.ended] (by decide)
  · exact consumer_end_requires_status_and_end.2.1
      (mkParams retryNoBudget [] 0)
      { initState retryNoBudget with enteredError := true } rfl rfl

/-- C6 (confirmed): a retryable error handled while `retries ≥ maxRetries ≥
1` with only `maxRetries` configured destroys the consumer stream with a
`GoogleError` of code `DEADLINE_EXCEEDED` (4) whose message begins
"Exceeded maximum number of retries" and quotes the original error, and no
further attempt is issued (the machine is terminal and the step emits no
`retryAttempt`). -/
theorem maxRetries_exceeded_deadline_error (retry : RetryOptions)
    (arg : RequestType) (t0 : ℚ) (s : MachineState) (e : GoogleError)
    (now : ℚ) (m : Nat) (hterm : s.terminated = false)
    (hmr : retry.backoffSettings.maxRetries = some m) (hm1 : 1 ≤ m)
    (htt : retry.backoffSettings.totalTimeoutMillis = none)
    (hretry : shouldRetryRequest e retry = true) (hexc : m ≤ s.retries) :
    stepEvent (mkParams retry arg t0) s (UpEvent.error e now)
      = ([Output.destroy (maxRetriesExceededError e)],
         { s with enteredError := true, terminated := true }) ∧
    (maxRetriesExceededError e).code = some Status.DEADLINE_EXCEEDED ∧
    ("Exceeded maximum number of retries".data
      <+: (maxRetriesExceededError e).message.data) ∧
    ((googleErrorToString e).data
      <:+: (maxRetriesExceededError e).message.data) ∧
    (stepEvent (mkParams retry arg t0) s (UpEvent.error e now)).1.filter
        isRetryAttemptOut = [] := by
  have hthrow := throwIf_maxRetries_exceeded 0 m s.timeout e now s.retries
    hm1 hexc
  have hstep : stepEvent (mkParams retry arg t0) s (UpEvent.error e now)
      = ([Output.destroy (maxRetriesExceededError e)],
         { s with enteredError := true, terminated := true }) := by
    simp [stepEvent, hterm, handleErrorEvent, typeofNeValueUndefined,
      hretry, mkParams, hmr, htt, truthyN, truthyQ, hthrow,
      parseGRPCStatusDetails, maxRetriesExceededError, newGoogleError]
  refine ⟨hstep, rfl, ?_, ?_, by simp [hstep, isRetryAttemptOut]⟩
  · show "Exceeded maximum number of retries".data <+:
      ("Exceeded maximum number of retries " ++
        ("retrying error " ++ googleErrorToString e ++ " ") ++
        "before any response was received").data
    rw [String.data_append, String.data_append]
    exact List.IsPrefix.trans (by decide)
      ((List.prefix_append _ _).trans (List.prefix_append _ _))
  · show (googleErrorToString e).data <:+:
      ("Exceeded maximum number of retries " ++
        ("retrying error " ++ googleErrorToString e ++ " ") ++
        "before any response was received").data
    refine ⟨"Exceeded maximum number of retries ".data ++
      "retrying error ".data, " ".data ++
      "before any response was received".data, ?_⟩
    simp [String.data_append]

/-- C6 (witness): the max-retries destruction at concrete inputs:
`maxRetries = 2`, two retries already made, a code-14 error with
`retryCodes = [14]`. -/
theorem maxRetries_exceeded_deadline_error_witness :
    stepEvent (mkParams retryMaxRetriesTwo [] 0)
        { initState retryMaxRetriesTwo with retries := 2 }
        (UpEvent.error errCode14 0)
      = ([Output.destroy (maxRetriesExceededError errCode14)],
         { initState retryMaxRetriesTwo with
             retries := 2, enteredError := true, terminated := true }) :=
  (maxRetries_exceeded_deadline_error retryMaxRetriesTwo [] 0
    { initState retryMaxRetriesTwo with retries := 2 } errCode14 0 2 rfl
    rfl (by decide) rfl (by decide) (by decide)).1

/-- One progress/failure cycle from a live, unarmed state: forward the data
message (resetting `retries` to 0), schedule a retry on the retryable
error (the budget check passes at `retries = 0`), and start the next
attempt when the timer fires. -/
lemma altTrace_cycle (retry : RetryOptions) (arg : RequestType) (t0 : ℚ)
    (d : Nat) (e : GoogleError) (m : Nat)
    (hmr : retry.backoffSettings.maxRetries = some m) (hm1 : 1 ≤ m)
    (htt : retry.backoffSettings.totalTimeoutMillis = none)
    (hretry : shouldRetryRequest e retry = true) :
    ∀ (n : Nat) (s : MachineState), s.terminated = false →
      s.timerArmed = false →
      (runFrom (mkParams retry arg t0) s (altTrace d e n)).1.filter
          isDestroyOut = [] ∧
      (runFrom (mkParams retry arg t0) s (altTrace d e n)).1.countP
          isRetryAttemptOut = n ∧
      (runFrom (mkParams retry arg t0) s (altTrace d e n)).2.terminated
        = false := by
  intro n
  induction n with
  | zero => intro s hterm _; simp [altTrace, runFrom, hterm]
  | succ k ih =>
    intro s hterm harm
    have hp : mkParams retry arg t0
        = { retry := retry, argument := arg, totalTimeout := none,
            maxRetries := some m, deadline := 0 } := by
      simp [mkParams, htt, hmr, truthyQ]
    have hthrow := throwIf_none_at_zero_retries 0 m s.timeout e 0 hm1
    obtain ⟨ih1, ih2, ih3⟩ := ih
      { dataEnd := false, statusReceived := false, enteredError := false,
        retries := 1,
        timeout := recomputeTimeout retry.backoffSettings 0 s.timeout 0,
        responseHasSent := s.responseHasSent, terminated := false,
        timerArmed := false } rfl rfl
    rw [hp] at ih1 ih2 ih3
    refine ⟨?_, ?_, ?_⟩ <;>
      · rw [hp]
        simp [altTrace, runFrom, stepEvent, handleErrorEvent,
          typeofNeValueUndefined, hretry, truthyQ, hthrow, hterm,
          isDestroyOut, isRetryAttemptOut, ih1, ih2, ih3]

/-- C7 (confirmed): every `data` event resets the retry counter to 0 before
the message is forwarded, and consequently an alternating
data/retryable-error sequence under a `maxRetries ≥ 1` budget (and no
total timeout) never destroys the consumer stream: every one of the `n`
cycles issues a new attempt and the machine stays live. -/
theorem data_resets_retryCount_infinite_progress :
    (∀ (p : MachineParams) (s : MachineState) (d : Nat),
      s.terminated = false →
      stepEvent p s (UpEvent.data d)
        = ([Output.data d], { s with retries := 0 })) ∧
    (∀ (retry : RetryOptions) (arg : RequestType) (t0 : ℚ) (d : Nat)
        (e : GoogleError) (m n : Nat),
      retry.backoffSettings.maxRetries = some m → 1 ≤ m →
      retry.backoffSettings.totalTimeoutMillis = none →
      shouldRetryRequest e retry = true →
      (runEvents retry arg t0 (altTrace d e n)).1.filter isDestroyOut = [] ∧
      (runEvents retry arg t0 (altTrace d e n)).1.countP isRetryAttemptOut
        = n ∧
      (runEvents retry arg t0 (altTrace d e n)).2.terminated = false) := by
  constructor
  · intro p s d hterm
    simp [stepEvent, hterm]
  · intro retry arg t0 d e m n hmr hm1 htt hretry
    exact altTrace_cycle retry arg t0 d e m hmr hm1 htt hretry n
      (initState retry) rfl rfl

/-- C7 (witness): the reset-and-retry property at concrete inputs: a data
event resets a counter of 2 to 0, and five data/error cycles under
`maxRetries = 2` produce five new attempts and no destruction. -/
theorem data_resets_retryCount_witness :
    stepEvent (mkParams retryMaxRetriesTwo [] 0)
        { initState retryMaxRetriesTwo with retries := 2 } (UpEvent.data 7)
      = ([Output.data 7], initState retryMaxRetriesTwo) ∧
    (runEvents retryMaxRetriesTwo [] 0
        (altTrace 5 errCode14 5)).1.countP isRetryAttemptOut = 5 := by
  constructor
  · exact data_resets_retryCount_infinite_progress.1
      (mkParams retryMaxRetriesTwo [] 0)
      { initState retryMaxRetriesTwo with retries := 2 } 7 rfl
  · exact (data_resets_retryCount_infinite_progress.2 retryMaxRetriesTwo
      [] 0 5 errCode14 2 5 rfl (by decide) rfl (by decide)).2.1

/-- Under an always-empty, always-continuing page function, the fetch loop
started at `attempts` with `attempts + k = maxAttemptsEmptyResponse + 1`
makes exactly `k` further calls before breaking with an empty cache. -/
lemma fetchLoop_allEmpty {Req R : Type}
    (api : Req → PageResult R × Option Req)
    (hapi : ∀ q, resultToCache (api q).1 = [] ∧ ∃ q2, (api q).2 = some q2) :
    ∀ (k attempts calls : Nat) (q : Req), 1 ≤ k →
      attempts + k = maxAttemptsEmptyResponse + 1 →
      ∃ nx, fetchLoop api [] (some q) attempts calls
        = ([], some nx, calls + k) := by
  intro k
  induction k with
  | zero => intro attempts calls q hk; omega
  | succ j ih =>
    intro attempts calls q _ hsum
    obtain ⟨hemp, q2, hq2⟩ := hapi q
    rcases Nat.eq_zero_or_pos j with hj | hj
    · subst hj
      simp only [maxAttemptsEmptyResponse] at hsum
      have ha : attempts = 10 := by omega
      subst ha
      refine ⟨q2, ?_⟩
      unfold fetchLoop
      simp [hemp, hq2, maxAttemptsEmptyResponse]
    · have hlt : ¬ attempts + 1 > maxAttemptsEmptyResponse := by
        simp only [maxAttemptsEmptyResponse] at hsum ⊢
        omega
      obtain ⟨nx, hrec⟩ := ih (attempts + 1) (calls + 1) q2 hj
        (by simp only [maxAttemptsEmptyResponse] at hsum ⊢; omega)
      refine ⟨nx, ?_⟩
      unfold fetchLoop
      simp [hemp, hq2, hlt, hrec]
      omega

/-- C8 (counterexample): with pages that always carry a next-page request and
zero resources, one `next()` performs 11 stub calls: the loop breaks only
once the consecutive-empty-page count EXCEEDS `maxAttemptsEmptyResponse =
10`, i.e. after the 11th empty page — not after the 10th as the claim
states — and then resolves to the terminal value. -/
theorem emptyPage_guard_counterexample :
    iterNext emptyPagesApi { cache := [], nextPageRequest := some 0 }
      = (none, { cache := [], nextPageRequest := some 11 }, 11) ∧
    (11 : Nat) ≠ 10 := by
  constructor
  · have h10 : ∀ q, resultToCache (emptyPagesApi q).1 = [] ∧
        ∃ q2, (emptyPagesApi q).2 = some q2 := fun q => ⟨rfl, q + 1, rfl⟩
    obtain ⟨nx, h⟩ := fetchLoop_allEmpty emptyPagesApi h10 11 0 0 0
      (by omega) rfl
    have hnx : nx = 11 := by
      have hvals : ∀ (a c q : Nat),
          (fetchLoop emptyPagesApi [] (some q) a c).2.1
            = some (q + (fetchLoop emptyPagesApi [] (some q) a c).2.2 - c) →
          True := fun _ _ _ _ => trivial
      -- the next-request chain starts at 0 and advances once per call
      clear hvals
      have : ∀ (k a c q : Nat), 1 ≤ k →
          a + k = maxAttemptsEmptyResponse + 1 →
          fetchLoop emptyPagesApi [] (some q) a c
            = ([], some (q + k), c + k) := by
        intro k
        induction k with
        | zero => intro a c q hk; omega
        | succ j ihk =>
          intro a c q _ hsum
          rcases Nat.eq_zero_or_pos j with hj | hj
          · subst hj
            simp only [maxAttemptsEmptyResponse] at hsum
            have ha : a = 10 := by omega
            subst ha
            unfold fetchLoop
            simp [emptyPagesApi, maxAttemptsEmptyResponse, resultToCache]
          · have hlt : ¬ a + 1 > maxAttemptsEmptyResponse := by
              simp only [maxAttemptsEmptyResponse] at hsum ⊢
              omega
            have hrec := ihk (a + 1) (c + 1) (q + 1) hj
              (by simp only [maxAttemptsEmptyResponse] at hsum ⊢; omega)
            unfold fetchLoop
            simp [emptyPagesApi, resultToCache, hlt, hrec]
            omega
      have h2 := this 11 0 0 0 (by omega) rfl
      rw [h2] at h
      simp at h
      omega
    subst hnx
    simp [iterNext, h]
  · decide

/-- C8 (amended): when every page call returns zero resources and a non-null
next-page request, `next()` from an empty cache breaks out of the fetch
loop after the 11th consecutive empty page (once the count exceeds
`maxAttemptsEmptyResponse = 10`), having made exactly 11 stub calls, and
resolves to the terminal `{done:true, value:undefined}`; it never polls an
empty-page sequence unboundedly. -/
theorem emptyPage_guard_breaks_after_eleven {Req R : Type}
    (api : Req → PageResult R × Option Req) (q0 : Req)
    (hapi : ∀ q, resultToCache (api q).1 = [] ∧ ∃ q2, (api q).2 = some q2) :
    ∃ nx, iterNext api { cache := [], nextPageRequest := some q0 }
      = (none, { cache := [], nextPageRequest := some nx },
         maxAttemptsEmptyResponse + 1) := by
  obtain ⟨nx, h⟩ := fetchLoop_allEmpty api hapi
    (maxAttemptsEmptyResponse + 1) 0 0 q0 (by omega) rfl
  exact ⟨nx, by simp [iterNext, h]⟩

/-- C8 (witness): the amended guard applied to the concrete always-empty page
function. -/
theorem emptyPage_guard_witness :
    ∃ nx, iterNext emptyPagesApi { cache := [], nextPageRequest := some 0 }
      = (none, { cache := [], nextPageRequest := some nx }, 11) := by
  have h := emptyPage_guard_breaks_after_eleven emptyPagesApi 0
    (fun q => ⟨rfl, q + 1, rfl⟩)
  simpa [maxAttemptsEmptyResponse] using h

/-- C9 (confirmed): when the page callback handles a successful page that
carries a non-null next-page request and the push loop has not ended the
stream, the `pageToken` property is deleted from the options — every other
field is left unchanged, as the record update records — and the next page
call is dispatched (or held while paused) with the request produced by the
previous page; a page with no next request leaves the options untouched. -/
theorem createStream_pageToken_deleted {Req R : Type} (paused : Bool)
    (options : CallOptions) (pushCount : Nat) (resources : List (Option R))
    (nreq : Req)
    (hlive : (pushResources (effectiveMaxResults options) resources
        pushCount false).2.2 = false) :
    ((pageStreamCallback paused options false pushCount none resources
        (some nreq)).options
      = { options with pageToken := none }) ∧
    ((pageStreamCallback paused options false pushCount none resources
        (some nreq)).action
      = if paused then PageAction.hold nreq else PageAction.dispatch nreq) ∧
    (∀ resources2 : List (Option R),
      (pushResources (effectiveMaxResults options) resources2
          pushCount false).2.2 = false →
      (pageStreamCallback paused options false pushCount none resources2
          (none : Option Req)).options = options) := by
  obtain ⟨pt, ap, mr, ofs⟩ := options
  refine ⟨?_, ?_, ?_⟩
  · cases pt <;> cases paused <;>
      simp [pageStreamCallback, hlive]
  · cases pt <;> cases paused <;>
      simp [pageStreamCallback, hlive]
  · intro resources2 hlive2
    simp [pageStreamCallback, hlive2]

/-- C9 (witness): the deletion applied at concrete inputs: options carrying
`pageToken = "x"`, one pushed resource, a next request `"tok2"`. -/
theorem createStream_pageToken_deleted_witness :
    (pageStreamCallback false
        { pageToken := some "x", autoPaginate := false, maxResults := none,
          otherFields := [("a", "b")] } false 0 none
        ([some 1] : List (Option Nat))
        (some "tok2" : Option String)).options
      = { pageToken := none, autoPaginate := false, maxResults := none,
          otherFields := [("a", "b")] } ∧
    (pageStreamCallback false
        { pageToken := some "x", autoPaginate := false, maxResults := none,
          otherFields := [("a", "b")] } false 0 none
        ([some 1] : List (Option Nat))
        (some "tok2" : Option String)).action
      = PageAction.dispatch "tok2" := by
  have h := @createStream_pageToken_deleted String Nat false
    { pageToken := some "x", autoPaginate := false, maxResults := none,
      otherFields := [("a", "b")] } 0 [some 1] "tok2" (by decide)
  exact ⟨h.1, h.2.1⟩

/-- After the success path has run (`streamResponseHandled` set, the
destroying error handler attached), every later output of the legacy
wrapper is the silent destruction. -/
lemma legacyRun_after_response (maxRetries : Nat) :
    ∀ (evs : List LegacyEvent) (s : LegacyState),
      s.streamResponseHandled = true → s.responsePiped = true →
      ∀ o ∈ (legacyRunFrom maxRetries s evs).1,
        o = LegacyOutput.destroyQuiet := by
  intro evs
  induction evs with
  | nil => intro s _ _ o ho; simp [legacyRunFrom] at ho
  | cons ev rest ih =>
    intro s hh hp o ho
    rw [legacyRunFrom] at ho
    cases ev with
    | response r =>
      simp only [legacyStep, hh, if_true] at ho
      simp at ho
      exact ih s hh hp o ho
    | error e =>
      simp only [legacyStep, hh, hp, if_true] at ho
      simp at ho
      rcases ho with ho | ho
      · exact ho
      · exact ih s hh hp o ho

/-- Every run of the legacy wrapper from a state satisfying the invariant
"piped implies handled" has outputs in which everything after an
`emitResponse` is a silent destruction. -/
lemma legacyRun_clean (maxRetries : Nat) :
    ∀ (evs : List LegacyEvent) (s : LegacyState),
      (s.responsePiped = true → s.streamResponseHandled = true) →
      cleanAfterResponse (legacyRunFrom maxRetries s evs).1 = true := by
  intro evs
  induction evs with
  | nil => intro s _; simp [legacyRunFrom, cleanAfterResponse]
  | cons ev rest ih =>
    intro s hinv
    rw [legacyRunFrom]
    cases ev with
    | response r =>
      by_cases hh : s.streamResponseHandled
      · simp only [legacyStep, hh, if_true]
        simpa [cleanAfterResponse] using ih s hinv
      · simp only [legacyStep, hh, if_false]
        simp only [List.cons_append, List.nil_append, cleanAfterResponse]
        rw [List.all_eq_true]
        intro o ho
        have := legacyRun_after_response maxRetries rest
          { s with streamResponseHandled := true, responsePiped := true }
          rfl rfl o ho
        simp [this]
    | error e =>
      by_cases hh : s.streamResponseHandled
      · by_cases hp : s.responsePiped
        · simp only [legacyStep, hh, hp, if_true]
          simpa [cleanAfterResponse] using ih s hinv
        · simp only [legacyStep, hh, hp, if_true, if_false]
          simpa [cleanAfterResponse] using ih s hinv
      · have hp : s.responsePiped = false := by
          rcases hq : s.responsePiped with _ | _
          · rfl
          · exact absurd (hinv hq) hh
        by_cases hn : s.numNoResponseAttempts + 1 ≤ maxRetries
        · simp only [legacyStep, hh, hp, hn, if_true, if_false]
          simpa [cleanAfterResponse] using
            ih { streamResponseHandled := false,
                 numNoResponseAttempts := s.numNoResponseAttempts + 1,
                 responsePiped := false } (by simp)
        · simp only [legacyStep, hh, hp, hn, if_true, if_false]
          simpa [cleanAfterResponse] using
            ih { streamResponseHandled := true,
                 numNoResponseAttempts := s.numNoResponseAttempts + 1,
                 responsePiped := false } (by simp)

/-- C10 (confirmed): in `streamingRetryRequest`, once an attempt's `response`
has been handled, a later `error` on that request stream is never emitted
as an `error` on the consumer stream and never triggers a retry: every
output after the run's `emitResponse` is the silent `retryStream.destroy()`
(no error argument), and on a post-response error event the wrapper's step
produces exactly that silent destruction. -/
theorem streamingRetryRequest_no_error_after_response :
    (∀ (maxRetries : Nat) (evs : List LegacyEvent),
      cleanAfterResponse (legacyRunFrom maxRetries legacyInit evs).1
        = true) ∧
    (∀ (maxRetries : Nat) (s : LegacyState) (e : GoogleError),
      s.streamResponseHandled = true → s.responsePiped = true →
      legacyStep maxRetries s (LegacyEvent.error e)
        = ([LegacyOutput.destroyQuiet], s)) := by
  constructor
  · intro maxRetries evs
    exact legacyRun_clean maxRetries evs legacyInit (by simp [legacyInit])
  · intro maxRetries s e hh hp
    simp [legacyStep, hh, hp]

/-- C10 (witness): the post-response silent destruction at a concrete state
and error. -/
theorem streamingRetryRequest_no_error_witness :
    legacyStep 2
        { streamResponseHandled := true, numNoResponseAttempts := 0,
          responsePiped := true } (LegacyEvent.error errCode14)
      = ([LegacyOutput.destroyQuiet],
         { streamResponseHandled := true, numNoResponseAttempts := 0,
           responsePiped := true }) :=
  streamingRetryRequest_no_error_after_response.2 2
    { streamResponseHandled := true, numNoResponseAttempts := 0,
      responsePiped := true } errCode14 rfl rfl

end Gax
